import Mathlib

/-!
Verification of the graph-model and geometry engine of the usonia-sprotty
diagram editor (src/src/model.ts and src/src/model/ResizeCommand.ts).

The data model is a shallow embedding of the TypeScript types in
src/src/types.ts: a graph is a list of children (process/svg nodes, package
containers, ports, edges).  Numeric model fields (positions, sizes, angles)
are embedded as exact rationals.  The trigonometric rotation helpers
(rotatePoint, calculatePortPositionWithRotation) are not embedded: their
exact no-op set depends on IEEE-754 double evaluation of Math.sin/Math.cos,
which exact arithmetic does not reproduce; the loader's rotated-node repair,
which is the only model operation calling into them, is abstracted as a
function parameter, and every theorem about the loader holds for an
arbitrary repair function.
-/

namespace Usonia

/-- A 2-D point, `{x, y}` in the source. -/
structure Pt where
  x : ℚ
  y : ℚ
deriving DecidableEq, Repr

/-- A node or port size, `NodeSize` / `{width, height}` in the source. -/
structure Sz where
  width : ℚ
  height : ℚ
deriving DecidableEq, Repr

/-- Port direction, `'input' | 'output'` in `types.ts`. -/
inductive PortType where
  | input
  | output
deriving DecidableEq, Repr

/-- Port shape, `'circle' | 'square' | 'diamond' | 'triangle'` in `types.ts`. -/
inductive PortShape where
  | circle
  | square
  | diamond
  | triangle
deriving DecidableEq, Repr

/-- Port side, `'left' | 'right' | 'top' | 'bottom'` in `types.ts`. -/
inductive PortSide where
  | left
  | right
  | top
  | bottom
deriving DecidableEq, Repr

/-- A port element (`SprottyPort`, type tag `port:flow`).  `side` is declared
as `PortSide` in `types.ts`, but `updateNodeSize` guards it with a JS
truthiness check (`if (side)`), so a bulk-loaded port may lack it at runtime:
we embed it as an `Option`. -/
structure SprottyPort where
  id : String
  position : Pt
  size : Sz
  portType : PortType
  shape : PortShape
  side : Option PortSide
  label : Option String
deriving DecidableEq, Repr

/-- Distinguishes the two leaf node variants: type tags `node:process`
(`SprottyNode`) and `node:svg` (`SvgNode`). -/
inductive NodeKind where
  | process
  | svg
deriving DecidableEq, Repr

/-- Common payload of `SprottyNode` / `SvgNode`: id, position, size, name,
child ports, flip offsets, rotation, and (for svg nodes) the raw payload. -/
structure NodeData where
  id : String
  position : Pt
  size : Sz
  name : String
  ports : List SprottyPort
  flipHorizontal : Option ℚ
  flipVertical : Option ℚ
  rotation : ℚ
  svgContent : Option String
deriving DecidableEq, Repr

/-- A child of the graph (or of a package container): a process/svg node, a
package container (`node:package`, whose children may again be nodes,
containers or ports), a bare port, or an edge (`edge:flow`). -/
inductive Child where
  | node (kind : NodeKind) (d : NodeData)
  | pkg (id : String) (position : Pt) (size : Sz) (name : String)
        (children : List Child) (rotation : ℚ)
  | portChild (p : SprottyPort)
  | edge (id sourceId targetId : String)

/-- The root container (`SprottyGraph`, type tag `graph`). -/
structure SprottyGraph where
  id : String
  children : List Child

/-- The mutable state of a `GraphModel` instance: the live tree plus the
monotonic edge-id counter (`edgeCounter`, initially 0). -/
structure ModelState where
  model : SprottyGraph
  edgeCounter : Nat

/-- `GraphModel.PORT_SIZE = 16`. -/
def PORT_SIZE : ℚ := 16

/-- `GraphModel.PORT_OFFSET = 8` (half of port size, for centering). -/
def PORT_OFFSET : ℚ := 8

/-- `distributeAlongAxis(index, total, length)` from `model.ts`:
distributes items evenly along an axis; a single item is centered. -/
def distributeAlongAxis (index total length : ℚ) : ℚ :=
  if total = 1 then
    (length - PORT_SIZE) / 2
  else
    let usableLength := length - PORT_SIZE
    let spacing := usableLength / (total - 1)
    spacing * index

/-- `calculatePortPosition(side, index, totalOnSide, nodeSize)` from
`model.ts`: maps a side to a 2-D offset, fixing one axis at `±PORT_OFFSET`
from the node edge and distributing the other axis. -/
def calculatePortPosition (side : PortSide) (index total : ℚ) (nodeSize : Sz) : Pt :=
  match side with
  | .left =>
      { x := -PORT_OFFSET, y := distributeAlongAxis index total nodeSize.height }
  | .right =>
      { x := nodeSize.width - PORT_OFFSET, y := distributeAlongAxis index total nodeSize.height }
  | .top =>
      { x := distributeAlongAxis index total nodeSize.width, y := -PORT_OFFSET }
  | .bottom =>
      { x := distributeAlongAxis index total nodeSize.width, y := nodeSize.height - PORT_OFFSET }

/-- The rotation update performed by `rotateRightNode` in `ResizeCommand.ts`
on the stored rotation of the targeted node: `+90`, except that a stored
rotation of exactly `360` wraps back to `90`. -/
def rotateRightNodeRotation (currentRotation : ℚ) : ℚ :=
  let newRotation := currentRotation + 90
  if currentRotation = 360 then 90 else newRotation

/-- The rotation update performed by `rotateLeftNode` in `ResizeCommand.ts`:
`-90`, except that a stored rotation of exactly `-360` wraps back to `-90`. -/
def rotateLeftNodeRotation (currentRotation : ℚ) : ℚ :=
  let newRotation := currentRotation - 90
  if currentRotation = -360 then -90 else newRotation

/-- `portId.split('-')[0]`: the text before the first `'-'` (the whole id
when no `'-'` occurs), as used by the `extractNodeId` fallback. -/
def firstDashField (portId : String) : String :=
  String.mk (portId.toList.takeWhile (fun c => c ≠ '-'))

/-- The owning-node scan of `extractNodeId` in `model.ts`: walk the top-level
children of type `node:process` / `node:svg` and return the id of the first
node owning a port with the given id. -/
def findPortOwner (portId : String) : List Child → Option String
  | [] => none
  | .node _ d :: cs =>
      if d.ports.any (fun p => p.id = portId) then some d.id else findPortOwner portId cs
  | _ :: cs => findPortOwner portId cs

/-- `extractNodeId(portId)` from `model.ts`: the owning-node scan, falling
back to the text before the first `'-'` separator. -/
def extractNodeId (children : List Child) (portId : String) : String :=
  match findPortOwner portId children with
  | some nodeId => nodeId
  | none => firstDashField portId

/-- The validation result record `{valid, reason?}` of `validateEdge`. -/
structure EdgeValidation where
  valid : Bool
  reason : Option String
deriving DecidableEq, Repr

/-- Whether a child is an `edge:flow` element with the given endpoints. -/
def isEdgeBetween (sourcePortId targetPortId : String) : Child → Bool
  | .edge _ s t => s = sourcePortId && t = targetPortId
  | _ => false

/-- `validateEdge(sourcePortId, targetPortId)` from `model.ts`: rejects a
pair whose extracted node ids coincide, then a pair for which an identical
`(sourceId, targetId)` edge already exists. -/
def validateEdge (st : ModelState) (sourcePortId targetPortId : String) : EdgeValidation :=
  let sourceNodeId := extractNodeId st.model.children sourcePortId
  let targetNodeId := extractNodeId st.model.children targetPortId
  if sourceNodeId = targetNodeId then
    { valid := false, reason := some "Cannot connect a node to itself" }
  else if st.model.children.any (isEdgeBetween sourcePortId targetPortId) then
    { valid := false, reason := some "Edge already exists" }
  else
    { valid := true, reason := none }

/-- The structured `{success, message}` result of `addEdge`. -/
structure AddEdgeResult where
  success : Bool
  message : String
deriving DecidableEq, Repr

/-- `validation.reason || 'Invalid edge'` (JS `||`: an absent or empty reason
falls back to the generic message). -/
def reasonOrDefault (reason : Option String) : String :=
  match reason with
  | some r => if r = "" then "Invalid edge" else r
  | none => "Invalid edge"

/-- `addEdge(sourcePortId, targetPortId)` from `model.ts`: validate, and on
success allocate `edge-<++counter>` and append the edge; on failure return
the reason without touching the state. -/
def addEdge (st : ModelState) (sourcePortId targetPortId : String) :
    ModelState × AddEdgeResult :=
  let validation := validateEdge st sourcePortId targetPortId
  if validation.valid then
    let newCounter := st.edgeCounter + 1
    let edgeId := "edge-" ++ toString newCounter
    ({ model := { st.model with
         children := st.model.children ++ [.edge edgeId sourcePortId targetPortId] },
       edgeCounter := newCounter },
     { success := true,
       message := "Edge created: " ++ sourcePortId ++ " → " ++ targetPortId })
  else
    (st, { success := false, message := reasonOrDefault validation.reason })

/-- Number of `edge:flow` children in a tree. -/
def edgeCount (children : List Child) : Nat :=
  children.countP fun c => match c with
    | .edge _ _ _ => true
    | _ => false

/-- Value of a list of decimal digits, as `parseInt` computes it on the
digits captured by `/edge-(\d+)/`. -/
def digitsToNat (digits : List Char) : Nat :=
  digits.foldl (fun acc c => acc * 10 + (c.toNat - '0'.toNat)) 0

/-- One attempt of the regex `/edge-(\d+)/` at the head of the character
list: succeeds when the list starts with `edge-` followed by at least one
digit, capturing the maximal digit run. -/
def matchEdgeAt : List Char → Option Nat
  | 'e' :: 'd' :: 'g' :: 'e' :: '-' :: rest =>
      let digits := rest.takeWhile Char.isDigit
      if digits.isEmpty then none else some (digitsToNat digits)
  | _ => none

/-- The regex search `id.match(/edge-(\d+)/)` over the id's characters:
leftmost position where `edge-<digits>` matches, returning the captured
number. -/
def findEdgeNum : List Char → Option Nat
  | [] => none
  | c :: cs =>
      match matchEdgeAt (c :: cs) with
      | some n => some n
      | none => findEdgeNum cs

/-- `parseInt(id.match(/edge-(\d+)/)[1])` on an edge id string. -/
def edgeIdNum (id : String) : Option Nat :=
  findEdgeNum id.toList

/-- The numbers contributed by the edge children of a tree to the edge-id
counter reconstruction: one per edge child whose id matches `/edge-(\d+)/`. -/
def edgeNums (children : List Child) : List Nat :=
  children.filterMap fun c => match c with
    | .edge id _ _ => edgeIdNum id
    | _ => none

/-- Is a stored rotation in the neutral band the loader skips
(`!rotation || rotation === 0 || rotation === -360 || rotation === 360`)?
Over exact rationals, JS falsiness of a number coincides with `= 0`. -/
def neutralRotation (rotation : ℚ) : Bool :=
  rotation = 0 || rotation = 360 || rotation = -360

/-- `recalculatePortPositionsForRotatedNodes` from `model.ts`: walk the
top-level `node:svg` / `node:process` children and repair the port positions
of every node carrying a non-neutral rotation.  The per-node repair (either
re-parsing the retained `svgContent` through `DOMParser`, or rotating the
stored positions in place with `rotatePoint`) depends on the browser DOM and
on transcendental functions, so it is taken as the parameter `repair`; every
theorem below holds for an arbitrary repair. -/
def recalculatePortPositionsForRotatedNodes (repair : NodeData → NodeData)
    (children : List Child) : List Child :=
  children.map fun c => match c with
    | .node kind d => if neutralRotation d.rotation then .node kind d else .node kind (repair d)
    | .pkg id position size name pkgChildren rotation => .pkg id position size name pkgChildren rotation
    | .portChild p => .portChild p
    | .edge id sourceId targetId => .edge id sourceId targetId

/-- `loadFromJson(jsonModel)` from `model.ts`: replace the model, rebuild
`edgeCounter` as the maximum number matched by `/edge-(\d+)/` over the
`edge:flow` children (0 when none), then repair rotated nodes' ports. -/
def loadFromJson (repair : NodeData → NodeData) (jsonModel : SprottyGraph) : ModelState :=
  let edges := jsonModel.children.filter fun c => match c with
    | .edge _ _ _ => true
    | _ => false
  let maxEdgeId := edges.foldl (fun mx c => match c with
    | .edge id _ _ =>
        match edgeIdNum id with
        | some n => Nat.max mx n
        | none => mx
    | _ => mx) 0
  { model := { jsonModel with
      children := recalculatePortPositionsForRotatedNodes repair jsonModel.children },
    edgeCounter := maxEdgeId }

/-- `getModel()` from `model.ts`: returns the live tree. -/
def getModel (st : ModelState) : SprottyGraph :=
  st.model

/-- The type test of the recursive `findNode` helpers in `model.ts`:
`child.type === 'node:process' || child.type === 'node:svg' ||
child.type === 'node:package'`. -/
def isNodeChild : Child → Bool
  | .node _ _ => true
  | .pkg _ _ _ _ _ _ => true
  | _ => false

/-- The id of any child element. -/
def childId : Child → String
  | .node _ d => d.id
  | .pkg id _ _ _ _ _ => id
  | .portChild p => p.id
  | .edge id _ _ => id

/-- The recursive `findNode` helper shared by `updateNodePosition` and
`updateNodeSize` in `model.ts`: pre-order scan, matching a node/svg/package
child by id before descending into package children. -/
def findNodeC (nodeId : String) : List Child → Option Child
  | [] => none
  | c :: cs =>
      if isNodeChild c && childId c = nodeId then some c
      else
        match c with
        | .pkg _ _ _ _ children _ =>
            match findNodeC nodeId children with
            | some found => some found
            | none => findNodeC nodeId cs
        | _ => findNodeC nodeId cs

/-- The per-port repositioning pass of `updateNodeSize`: walk the ports in
children order, carrying for each side the running ordinal (`index`) of
ports already seen on that side; a port with a (truthy) side gets
`calculatePortPosition(side, index, totalOnSide, {width, height})`, a port
without one is left unmoved. -/
def resizePortsGo (newSize : Sz) (total : PortSide → Nat) (counts : PortSide → Nat) :
    List SprottyPort → List SprottyPort
  | [] => []
  | p :: ps =>
      match p.side with
      | none => p :: resizePortsGo newSize total counts ps
      | some s =>
          { p with position := calculatePortPosition s (counts s) (total s) newSize } ::
            resizePortsGo newSize total (fun s' => if s' = s then counts s' + 1 else counts s') ps

/-- Port repositioning of `updateNodeSize` on a node's port list: group the
`port:flow` children by side and re-derive each position from the new size
and the port's current ordinal within its side. -/
def resizePorts (newSize : Sz) (ports : List SprottyPort) : List SprottyPort :=
  resizePortsGo newSize (fun s => ports.countP fun p => p.side = some s) (fun _ => 0) ports

/-- Same pass over the mixed child list of a package container: only the
`port:flow` entries are collected into sides and repositioned, all other
children are left untouched. -/
def resizePkgPortsGo (newSize : Sz) (total : PortSide → Nat) (counts : PortSide → Nat) :
    List Child → List Child
  | [] => []
  | .portChild p :: cs =>
      (match p.side with
       | none => Child.portChild p :: resizePkgPortsGo newSize total counts cs
       | some s =>
           Child.portChild
             { p with position := calculatePortPosition s (counts s) (total s) newSize } ::
             resizePkgPortsGo newSize total (fun s' => if s' = s then counts s' + 1 else counts s') cs)
  | c :: cs => c :: resizePkgPortsGo newSize total counts cs

/-- Package variant of `resizePorts`. -/
def resizePkgPorts (newSize : Sz) (children : List Child) : List Child :=
  resizePkgPortsGo newSize
    (fun s => children.countP fun c => match c with
      | .portChild p => p.side = some s
      | _ => false)
    (fun _ => 0) children

/-- The mutation `updateNodeSize` applies to a found process/svg node:
overwrite the size and re-derive the positions of the `port:flow` children. -/
def resizeNodeData (width height : ℚ) (d : NodeData) : NodeData :=
  { d with size := { width := width, height := height },
           ports := resizePorts { width := width, height := height } d.ports }

/-- The mutation `updateNodeSize` applies to the node it found: overwrite the
size and re-derive the positions of the `port:flow` children. -/
def resizeChild (width height : ℚ) : Child → Child
  | .node kind d => .node kind (resizeNodeData width height d)
  | .pkg id position _ name children rotation =>
      .pkg id position { width := width, height := height } name
        (resizePkgPorts { width := width, height := height } children) rotation
  | .portChild p => .portChild p
  | .edge id sourceId targetId => .edge id sourceId targetId

/-- In-tree part of `updateNodeSize(nodeId, width, height)`: locate the first
node matching `findNode`'s pre-order scan and apply `resizeChild` to it;
`none` when the id is not found (the operation is then a silent no-op). -/
def updateSizeGo (nodeId : String) (width height : ℚ) : List Child → Option (List Child)
  | [] => none
  | c :: cs =>
      if isNodeChild c && childId c = nodeId then some (resizeChild width height c :: cs)
      else
        match c with
        | .pkg id position size name children rotation =>
            match updateSizeGo nodeId width height children with
            | some children' => some (.pkg id position size name children' rotation :: cs)
            | none =>
                match updateSizeGo nodeId width height cs with
                | some cs' => some (.pkg id position size name children rotation :: cs')
                | none => none
        | _ =>
            match updateSizeGo nodeId width height cs with
            | some cs' => some (c :: cs')
            | none => none

/-- `updateNodeSize(nodeId, width, height)` from `model.ts`. -/
def updateNodeSize (st : ModelState) (nodeId : String) (width height : ℚ) : ModelState :=
  match updateSizeGo nodeId width height st.model.children with
  | some children' => { st with model := { st.model with children := children' } }
  | none => st

/-- Correspondence between the lookup and the in-place resize of
`updateNodeSize`: either the node id is absent (both the lookup and the
update fail), or the lookup finds a child and the updated tree holds the
resized child at the same place. -/
def UpdateSizeSpec (nodeId : String) (width height : ℚ) (cs : List Child) : Prop :=
  (findNodeC nodeId cs = none ∧ updateSizeGo nodeId width height cs = none) ∨
  (∃ c cs', findNodeC nodeId cs = some c ∧
    updateSizeGo nodeId width height cs = some cs' ∧
    findNodeC nodeId cs' = some (resizeChild width height c))

/-- Does every node in a tree (recursively, package containers included)
carry a rotation in the neutral band `{0, 360, -360}` (or none, embedded as
0)? -/
def allRotationsNeutral : List Child → Bool
  | [] => true
  | .node _ d :: cs => neutralRotation d.rotation && allRotationsNeutral cs
  | .pkg _ _ _ _ children rotation :: cs =>
      neutralRotation rotation && allRotationsNeutral children && allRotationsNeutral cs
  | .portChild _ :: cs => allRotationsNeutral cs
  | .edge _ _ _ :: cs => allRotationsNeutral cs

/-- Reference form of the per-side repositioning of `updateNodeSize`: the
`k`-th port (counting from `k0`) of the `totalS` ports sharing side `s` gets
`calculatePortPosition s k totalS`. -/
def repositionSeq (newSize : Sz) (totalS : Nat) (s : PortSide) :
    Nat → List SprottyPort → List SprottyPort
  | _, [] => []
  | k, p :: ps =>
      { p with position := calculatePortPosition s k totalS newSize } ::
        repositionSeq newSize totalS s (k + 1) ps

/-- Sample port for the round-trip scenario. -/
def samplePortN1In : SprottyPort :=
  { id := "n1-in"
    position := { x := -8, y := 22 }
    size := { width := 16, height := 16 }
    portType := .input
    shape := .circle
    side := some .left
    label := none }

/-- Sample unrotated process node. -/
def sampleProcessNode : NodeData :=
  { id := "n1"
    position := { x := 0, y := 0 }
    size := { width := 120, height := 60 }
    name := "N1"
    ports := [samplePortN1In]
    flipHorizontal := none
    flipVertical := none
    rotation := 0
    svgContent := none }

/-- Sample svg node whose rotation sits at the neutral value 360. -/
def sampleSvgNode : NodeData :=
  { id := "n2"
    position := { x := 5, y := 5 }
    size := { width := 200, height := 200 }
    name := "N2"
    ports := []
    flipHorizontal := none
    flipVertical := none
    rotation := 360
    svgContent := some "<svg></svg>" }

/-- Sample tree with only neutral rotations: a process node, a package
containing an svg node, and an edge. -/
def sampleNeutralGraph : SprottyGraph :=
  { id := "root"
    children := [
      .node .process sampleProcessNode,
      .pkg "p1" { x := 10, y := 10 } { width := 400, height := 300 } "Pkg"
        [.node .svg sampleSvgNode] 0,
      .edge "edge-1" "n1-in" "n2-out"] }

/-- First left port of the resize scenario node (120x60 layout). -/
def resizeSamplePortL1 : SprottyPort :=
  { id := "m-l1"
    position := { x := -8, y := 0 }
    size := { width := 16, height := 16 }
    portType := .input
    shape := .circle
    side := some .left
    label := none }

/-- Second left port of the resize scenario node. -/
def resizeSamplePortL2 : SprottyPort :=
  { id := "m-l2"
    position := { x := -8, y := 44 }
    size := { width := 16, height := 16 }
    portType := .input
    shape := .square
    side := some .left
    label := none }

/-- Right port of the resize scenario node. -/
def resizeSamplePortR : SprottyPort :=
  { id := "m-r"
    position := { x := 112, y := 22 }
    size := { width := 16, height := 16 }
    portType := .output
    shape := .circle
    side := some .right
    label := none }

/-- A port of the resize scenario node that is not attached to a recognized
side. -/
def resizeSamplePortX : SprottyPort :=
  { id := "m-x"
    position := { x := 5, y := 5 }
    size := { width := 16, height := 16 }
    portType := .output
    shape := .diamond
    side := none
    label := none }

/-- The resize scenario node: 120x60, two left ports, one right port, one
port without a recognized side. -/
def resizeSampleNode : NodeData :=
  { id := "m"
    position := { x := 20, y := 30 }
    size := { width := 120, height := 60 }
    name := "M"
    ports := [resizeSamplePortL1, resizeSamplePortX, resizeSamplePortL2, resizeSamplePortR]
    flipHorizontal := none
    flipVertical := none
    rotation := 0
    svgContent := none }

/-- The resize scenario state: the target node lives inside a package
container, below an unrelated edge. -/
def resizeSampleState : ModelState :=
  { model := { id := "root"
               children := [
                 .edge "edge-1" "a-out" "b-in",
                 .pkg "pkg1" { x := 0, y := 0 } { width := 400, height := 300 } "Pkg"
                   [.node .process resizeSampleNode] 0] }
    edgeCounter := 1 }

/-- C1: for every side length `L`, every `totalOnSide ≥ 1` and every index
`0 ≤ i < totalOnSide`, `distributeAlongAxis` returns `(L - 16) / 2` when the
side holds a single port and `i * (L - 16) / (totalOnSide - 1)` otherwise;
in particular the three left ports of a height-60 node sit at the local
offsets `y = 0, 22, 44` (with `x = -8`). -/
theorem c1_distributeAlongAxis_formula (L t i : ℚ)
    (ht : 1 ≤ t) (hi0 : 0 ≤ i) (hit : i < t) :
    distributeAlongAxis i t L =
      (if t = 1 then (L - 16) / 2 else i * (L - 16) / (t - 1)) ∧
    calculatePortPosition .left 0 3 { width := 120, height := 60 } = { x := -8, y := 0 } ∧
    calculatePortPosition .left 1 3 { width := 120, height := 60 } = { x := -8, y := 22 } ∧
    calculatePortPosition .left 2 3 { width := 120, height := 60 } = { x := -8, y := 44 } := by
  refine ⟨?_, ?_, ?_, ?_⟩
  · unfold distributeAlongAxis PORT_SIZE
    split_ifs with h
    · rfl
    · ring
  all_goals norm_num [calculatePortPosition, distributeAlongAxis, PORT_SIZE, PORT_OFFSET,
    Pt.mk.injEq]

/-- Witness for C1 at `L = 60`, `totalOnSide = 3`, `index = 1`. -/
theorem c1_witness :
    distributeAlongAxis 1 3 60 =
      (if (3 : ℚ) = 1 then ((60 : ℚ) - 16) / 2 else 1 * (60 - 16) / (3 - 1)) ∧
    calculatePortPosition .left 0 3 { width := 120, height := 60 } = { x := -8, y := 0 } ∧
    calculatePortPosition .left 1 3 { width := 120, height := 60 } = { x := -8, y := 22 } ∧
    calculatePortPosition .left 2 3 { width := 120, height := 60 } = { x := -8, y := 44 } :=
  c1_distributeAlongAxis_formula 60 3 1 (by norm_num) (by norm_num) (by norm_num)

/-- C9 fails as stated: with no lower bound on the side length, the port
distribution is *decreasing* in the index.  At `L = 0`, `totalOnSide = 2`
the offsets are `0` and `-16`. -/
theorem c9_counterexample :
    ¬ (∀ L t i j : ℚ, 1 ≤ t → 0 ≤ i → i ≤ j → j < t →
        distributeAlongAxis i t L ≤ distributeAlongAxis j t L) := by
  intro h
  have h01 := h 0 2 0 1 (by norm_num) le_rfl (by norm_num) (by norm_num)
  norm_num [distributeAlongAxis, PORT_SIZE] at h01

/-- C9, amended: for side lengths of at least the port footprint
(`L ≥ 16`), `distributeAlongAxis` is monotonically non-decreasing in the
index; for `totalOnSide = 1` it returns exactly the centering value
`(L - 16) / 2` for every side length `L`, with no lower bound. -/
theorem c9_monotone_amended (L t i j : ℚ)
    (ht : 1 ≤ t) (hi : 0 ≤ i) (hij : i ≤ j) (hjt : j < t) :
    (16 ≤ L → distributeAlongAxis i t L ≤ distributeAlongAxis j t L) ∧
    distributeAlongAxis i 1 L = (L - 16) / 2 := by
  constructor
  · intro hL
    unfold distributeAlongAxis PORT_SIZE
    split_ifs with h1
    · exact le_rfl
    · have htgt : (0 : ℚ) < t - 1 := by
        rcases lt_or_eq_of_le ht with h | h
        · linarith
        · exact absurd h.symm h1
      have hsp : 0 ≤ (L - 16) / (t - 1) := div_nonneg (by linarith) (le_of_lt htgt)
      exact mul_le_mul_of_nonneg_left hij hsp
  · unfold distributeAlongAxis PORT_SIZE
    norm_num

/-- Witness for the amended C9: monotonicity at `L = 60`, `totalOnSide = 3`,
`i = 0`, `j = 2`, and the centering value at `totalOnSide = 1` for the
below-footprint side length `L = 7`. -/
theorem c9_witness :
    distributeAlongAxis 0 3 60 ≤ distributeAlongAxis 2 3 60 ∧
    distributeAlongAxis 0 1 7 = ((7 : ℚ) - 16) / 2 :=
  ⟨(c9_monotone_amended 60 3 0 2 (by norm_num) (by norm_num) (by norm_num)
      (by norm_num)).1 (by norm_num),
   (c9_monotone_amended 7 1 0 0 (by norm_num) (by norm_num) (by norm_num)
      (by norm_num)).2⟩

/-- C5 fails as stated: four consecutive `rotateRightNode` applications on a
node with stored rotation 0 leave the rotation at `360`, not `90` (the wrap
back to `90` happens only on the *fifth* application, when the stored value
is already `360`). -/
theorem c5_counterexample :
    rotateRightNodeRotation (rotateRightNodeRotation (rotateRightNodeRotation
      (rotateRightNodeRotation 0))) = 360 ∧ (360 : ℚ) ≠ 90 := by
  constructor
  · norm_num [rotateRightNodeRotation]
  · norm_num

/-- C5, amended: starting from stored rotation 0, four `rotateRightNode`
applications leave the stored rotation at `360` (the neutral band); the
fifth application wraps it back to `90`. -/
theorem c5_rotate_right_amended :
    rotateRightNodeRotation (rotateRightNodeRotation (rotateRightNodeRotation
      (rotateRightNodeRotation 0))) = 360 ∧
    rotateRightNodeRotation (rotateRightNodeRotation (rotateRightNodeRotation
      (rotateRightNodeRotation (rotateRightNodeRotation 0)))) = 90 := by
  norm_num [rotateRightNodeRotation]

/-- Appending an `edge:flow` child does not change the owning-node scan,
which only inspects `node:process` / `node:svg` children. -/
theorem findPortOwner_append_edge (p i a b : String) :
    ∀ cs : List Child, findPortOwner p (cs ++ [.edge i a b]) = findPortOwner p cs := by
  intro cs
  induction cs with
  | nil => rfl
  | cons c cs ih => cases c <;> simp [findPortOwner, ih]

/-- Appending an `edge:flow` child does not change `extractNodeId`. -/
theorem extractNodeId_append_edge (cs : List Child) (p i a b : String) :
    extractNodeId (cs ++ [.edge i a b]) p = extractNodeId cs p := by
  unfold extractNodeId
  rw [findPortOwner_append_edge]

/-- Appending an `edge:flow` child increments the edge count by one. -/
theorem edgeCount_append_edge (cs : List Child) (i a b : String) :
    edgeCount (cs ++ [.edge i a b]) = edgeCount cs + 1 := by
  simp [edgeCount, List.countP_append, List.countP_cons]

/-- C3: whenever the owning-node resolution gives the same node id for the
source and target port ids, `addEdge` fails with the
cannot-connect-to-itself reason and leaves the state untouched, regardless
of the ports' directions (which the validation never inspects). -/
theorem c3_addEdge_same_node (st : ModelState) (s t : String)
    (h : extractNodeId st.model.children s = extractNodeId st.model.children t) :
    addEdge st s t =
      (st, { success := false, message := "Cannot connect a node to itself" }) := by
  have hv : validateEdge st s t =
      { valid := false, reason := some "Cannot connect a node to itself" } := by
    simp [validateEdge, h]
  simp [addEdge, hv, reasonOrDefault]

/-- Witness for C3: on the empty model, ports `a-1` and `a-2` both resolve
(by the separator fallback) to node `a`. -/
theorem c3_witness :
    addEdge { model := { id := "root", children := [] }, edgeCounter := 0 } "a-1" "a-2"
      = ({ model := { id := "root", children := [] }, edgeCounter := 0 },
         { success := false, message := "Cannot connect a node to itself" }) :=
  c3_addEdge_same_node _ "a-1" "a-2" (by decide)

/-- C10: a failed `addEdge` (failed validation) returns `success = false`
and leaves the entire model state — children sequence and edge-id counter —
exactly as it was, so later allocations are unaffected. -/
theorem c10_failed_addEdge (st : ModelState) (s t : String)
    (h : (validateEdge st s t).valid = false) :
    (addEdge st s t).1 = st ∧ (addEdge st s t).2.success = false := by
  simp [addEdge, h]

/-- Witness for C10: on the empty model, `addEdge "x-1" "x-2"` fails
validation (same extracted node id) and leaves the state unchanged. -/
theorem c10_witness :
    (addEdge { model := { id := "root", children := [] }, edgeCounter := 0 } "x-1" "x-2").1
        = { model := { id := "root", children := [] }, edgeCounter := 0 } ∧
    (addEdge { model := { id := "root", children := [] }, edgeCounter := 0 } "x-1" "x-2").2.success
        = false :=
  c10_failed_addEdge _ "x-1" "x-2" (by decide)

/-- On a state whose children already end in an `(s, t)` edge, a further
`addEdge s t` call fails as a duplicate and changes nothing (given that the
two port ids do not resolve to the same node). -/
theorem addEdge_on_duplicate (m : SprottyGraph) (k : Nat) (i s t : String)
    (hneq : extractNodeId m.children s ≠ extractNodeId m.children t) :
    addEdge { model := { id := m.id, children := m.children ++ [.edge i s t] },
              edgeCounter := k } s t
      = ({ model := { id := m.id, children := m.children ++ [.edge i s t] },
           edgeCounter := k },
         { success := false, message := "Edge already exists" }) := by
  have hval : validateEdge
      { model := { id := m.id, children := m.children ++ [Child.edge i s t] },
        edgeCounter := k } s t
      = { valid := false, reason := some "Edge already exists" } := by
    unfold validateEdge
    dsimp only
    rw [extractNodeId_append_edge, extractNodeId_append_edge, if_neg hneq]
    simp [isEdgeBetween]
  simp [addEdge, hval, reasonOrDefault]

/-- C2 fails as stated: it quantifies over *every* pair of port ids, but a
pair that fails validation (here both ids fall back to the owning node `n1`)
makes already the *first* call fail, so it is not true that the first of two
identical calls always succeeds. -/
theorem c2_counterexample :
    (addEdge { model := { id := "root", children := [] }, edgeCounter := 0 }
        "n1-in" "n1-out").2
      = { success := false, message := "Cannot connect a node to itself" } := by
  decide

/-- C2, amended: for every state and pair of port ids whose *first*
`addEdge` call succeeds, the immediately repeated call fails with the
duplicate-edge message in a structured result, leaves the state unchanged,
and across the two calls the number of edge children grows by exactly 1. -/
theorem c2_addEdge_duplicate_amended (st : ModelState) (s t : String)
    (h : (addEdge st s t).2.success = true) :
    (addEdge (addEdge st s t).1 s t).2.success = false ∧
    (addEdge (addEdge st s t).1 s t).2.message = "Edge already exists" ∧
    (addEdge (addEdge st s t).1 s t).1 = (addEdge st s t).1 ∧
    edgeCount ((addEdge (addEdge st s t).1 s t).1).model.children
      = edgeCount st.model.children + 1 := by
  have hv : (validateEdge st s t).valid = true := by
    cases hb : (validateEdge st s t).valid
    · simp [addEdge, hb] at h
    · rfl
  have h1 : addEdge st s t =
      ({ model := { st.model with children := st.model.children ++
           [.edge ("edge-" ++ toString (st.edgeCounter + 1)) s t] },
         edgeCounter := st.edgeCounter + 1 },
       { success := true, message := "Edge created: " ++ s ++ " → " ++ t }) := by
    simp [addEdge, hv]
  have hneq : extractNodeId st.model.children s ≠ extractNodeId st.model.children t := by
    intro he
    have hvf : validateEdge st s t =
        { valid := false, reason := some "Cannot connect a node to itself" } := by
      simp [validateEdge, he]
    rw [hvf] at hv
    simp at hv
  rw [h1]
  rw [addEdge_on_duplicate st.model (st.edgeCounter + 1)
    ("edge-" ++ toString (st.edgeCounter + 1)) s t hneq]
  refine ⟨rfl, rfl, rfl, ?_⟩
  simp [edgeCount_append_edge]

/-- Witness for the amended C2: on the empty model the pair
`("a-out", "b-in")` validates (distinct fallback node ids), so the first
call succeeds and the second fails as a duplicate. -/
theorem c2_witness :
    (addEdge (addEdge { model := { id := "root", children := [] }, edgeCounter := 0 }
        "a-out" "b-in").1 "a-out" "b-in").2.success = false ∧
    (addEdge (addEdge { model := { id := "root", children := [] }, edgeCounter := 0 }
        "a-out" "b-in").1 "a-out" "b-in").2.message = "Edge already exists" ∧
    (addEdge (addEdge { model := { id := "root", children := [] }, edgeCounter := 0 }
        "a-out" "b-in").1 "a-out" "b-in").1
      = (addEdge { model := { id := "root", children := [] }, edgeCounter := 0 }
        "a-out" "b-in").1 ∧
    edgeCount ((addEdge (addEdge { model := { id := "root", children := [] }, edgeCounter := 0 }
        "a-out" "b-in").1 "a-out" "b-in").1).model.children
      = edgeCount ([] : List Child) + 1 :=
  c2_addEdge_duplicate_amended
    { model := { id := "root", children := [] }, edgeCounter := 0 } "a-out" "b-in" (by decide)

/-- The edge-counter fold of `loadFromJson` equals a plain `Nat.max` fold
over the matched edge numbers. -/
theorem loadFromJson_foldl_eq :
    ∀ (cs : List Child) (acc : Nat),
      ((cs.filter fun c => match c with
          | .edge _ _ _ => true
          | _ => false).foldl (fun mx c => match c with
          | .edge id _ _ =>
              match edgeIdNum id with
              | some n => Nat.max mx n
              | none => mx
          | _ => mx) acc)
        = (edgeNums cs).foldl Nat.max acc := by
  intro cs
  induction cs with
  | nil => intro acc; rfl
  | cons c cs ih =>
      intro acc
      match c with
      | .node k d => simpa [edgeNums, List.filter] using ih acc
      | .pkg i p sz n ch r => simpa [edgeNums, List.filter] using ih acc
      | .portChild p => simpa [edgeNums, List.filter] using ih acc
      | .edge id a b =>
          cases hn : edgeIdNum id with
          | none => simpa [edgeNums, List.filter, hn] using ih acc
          | some n => simpa [edgeNums, List.filter, hn] using ih (Nat.max acc n)

/-- `edgeCounter` after `loadFromJson` is the `Nat.max` fold (from 0) of the
numbers matched by `/edge-(\d+)/` over the edge children. -/
theorem loadFromJson_edgeCounter (repair : NodeData → NodeData) (g : SprottyGraph) :
    (loadFromJson repair g).edgeCounter = (edgeNums g.children).foldl Nat.max 0 := by
  unfold loadFromJson
  dsimp only
  exact loadFromJson_foldl_eq g.children 0

/-- A `Nat.max` fold is bounded by any bound of its accumulator and
elements. -/
theorem foldl_max_le_of_le (M : Nat) :
    ∀ (l : List Nat) (acc : Nat), acc ≤ M → (∀ n ∈ l, n ≤ M) →
      l.foldl Nat.max acc ≤ M := by
  intro l
  induction l with
  | nil => intro acc hacc _; exact hacc
  | cons n l ih =>
      intro acc hacc hl
      exact ih (Nat.max acc n)
        (Nat.max_le.mpr ⟨hacc, hl n (List.mem_cons_self n l)⟩)
        (fun m hm => hl m (List.mem_cons_of_mem n hm))

/-- The accumulator bounds a `Nat.max` fold from below. -/
theorem acc_le_foldl_max :
    ∀ (l : List Nat) (acc : Nat), acc ≤ l.foldl Nat.max acc := by
  intro l
  induction l with
  | nil => intro acc; exact le_rfl
  | cons p l ih =>
      intro acc
      exact le_trans (Nat.le_max_left acc p) (ih (Nat.max acc p))

/-- Every member of a list bounds from below its `Nat.max` fold. -/
theorem mem_le_foldl_max :
    ∀ (l : List Nat) (acc : Nat) (n : Nat), n ∈ l → n ≤ l.foldl Nat.max acc := by
  intro l
  induction l with
  | nil => intro acc n hn; cases hn
  | cons m l ih =>
      intro acc n hn
      rcases List.mem_cons.mp hn with h | h
      · subst h
        exact le_trans (Nat.le_max_right acc n) (acc_le_foldl_max l (Nat.max acc n))
      · exact ih (Nat.max acc m) n h

/-- C4 fails as stated: the loader's regex `/edge-(\d+)/` matches the
*first* `edge-<digits>` occurrence anywhere in an edge id, not a numeric
suffix.  The id `edge-3-edge-9` has the numeric suffix `edge-9` (so the
claim predicts counter 9 and next id `edge-10`), but the loader
reconstructs the counter as 3 and the next successful `addEdge` allocates
`edge-4`. -/
theorem c4_counterexample :
    ("edge-3-edge-9" = "edge-3-" ++ ("edge-" ++ Nat.repr 9)) ∧
    (loadFromJson (fun d => d)
        { id := "root", children := [.edge "edge-3-edge-9" "p" "q"] }).edgeCounter = 3 ∧
    (3 : Nat) ≠ 9 ∧
    (addEdge (loadFromJson (fun d => d)
        { id := "root", children := [.edge "edge-3-edge-9" "p" "q"] })
        "a-x" "b-y").2.success = true ∧
    (addEdge (loadFromJson (fun d => d)
        { id := "root", children := [.edge "edge-3-edge-9" "p" "q"] })
        "a-x" "b-y").1.model.children
      = [.edge "edge-3-edge-9" "p" "q", .edge "edge-4" "a-x" "b-y"] ∧
    "edge-4" ≠ "edge-10" :=
  ⟨by decide, by decide, by decide, by decide, by rfl, by decide⟩

/-- C4, amended: after `loadFromJson`, the edge-id counter equals the
maximum `M` of the numbers captured by the *first* `edge-<digits>` match in
each edge child's id (for ids that are exactly of the form `edge-<n>` this
is the maximum numeric suffix), with `M = 0` when no edge id matches, and
the next successful `addEdge` appends an edge with id `edge-<M+1>`; in
particular a tree whose highest such id is `edge-7` yields `edge-8` next. -/
theorem c4_edge_counter_amended (repair : NodeData → NodeData) (g : SprottyGraph)
    (M : Nat) (s t : String)
    (hall : ∀ n ∈ edgeNums g.children, n ≤ M)
    (hmax : M ∈ edgeNums g.children ∨ (edgeNums g.children = [] ∧ M = 0)) :
    (loadFromJson repair g).edgeCounter = M ∧
    ((addEdge (loadFromJson repair g) s t).2.success = true →
      (addEdge (loadFromJson repair g) s t).1.model.children
        = (loadFromJson repair g).model.children ++
            [.edge ("edge-" ++ toString (M + 1)) s t]) := by
  have hc : (loadFromJson repair g).edgeCounter = M := by
    rw [loadFromJson_edgeCounter]
    rcases hmax with hmem | ⟨hnil, hM0⟩
    · exact Nat.le_antisymm
        (foldl_max_le_of_le M (edgeNums g.children) 0 (Nat.zero_le M) hall)
        (mem_le_foldl_max (edgeNums g.children) 0 M hmem)
    · rw [hnil, hM0]
      rfl
  refine ⟨hc, fun hs => ?_⟩
  have hv : (validateEdge (loadFromJson repair g) s t).valid = true := by
    cases hb : (validateEdge (loadFromJson repair g) s t).valid
    · simp [addEdge, hb] at hs
    · rfl
  simp [addEdge, hv, hc]

/-- Witness for the amended C4: a tree containing `edge-3` and `edge-7`
reconstructs counter 7 and allocates `edge-8` for the next edge. -/
theorem c4_witness :
    (loadFromJson (fun d => d)
        { id := "root", children := [.edge "edge-3" "p" "q", .edge "edge-7" "r" "u"] }).edgeCounter
      = 7 ∧
    (addEdge (loadFromJson (fun d => d)
        { id := "root", children := [.edge "edge-3" "p" "q", .edge "edge-7" "r" "u"] })
        "a-x" "b-y").1.model.children
      = (loadFromJson (fun d => d)
          { id := "root", children := [.edge "edge-3" "p" "q", .edge "edge-7" "r" "u"] }).model.children
        ++ [.edge "edge-8" "a-x" "b-y"] :=
  ⟨(c4_edge_counter_amended (fun d => d)
      { id := "root", children := [.edge "edge-3" "p" "q", .edge "edge-7" "r" "u"] }
      7 "a-x" "b-y" (by decide) (Or.inl (by decide))).1,
   (c4_edge_counter_amended (fun d => d)
      { id := "root", children := [.edge "edge-3" "p" "q", .edge "edge-7" "r" "u"] }
      7 "a-x" "b-y" (by decide) (Or.inl (by decide))).2 (by decide)⟩

/-- On a tree whose top-level nodes all carry neutral rotations, the
rotated-port repair pass of `loadFromJson` changes nothing (for any repair
function). -/
theorem recalc_neutral_id (repair : NodeData → NodeData) :
    ∀ cs : List Child, allRotationsNeutral cs = true →
      recalculatePortPositionsForRotatedNodes repair cs = cs := by
  intro cs
  induction cs with
  | nil => intro _; rfl
  | cons c cs ih =>
      intro h
      match c with
      | .node k d =>
          rw [allRotationsNeutral, Bool.and_eq_true] at h
          have ih' := ih h.2
          simp only [recalculatePortPositionsForRotatedNodes, List.map_cons] at ih' ⊢
          simp [h.1, ih']
      | .pkg i p sz n ch r =>
          rw [allRotationsNeutral, Bool.and_eq_true] at h
          have ih' := ih h.2
          simp only [recalculatePortPositionsForRotatedNodes, List.map_cons] at ih' ⊢
          simp [ih']
      | .portChild p =>
          simp only [allRotationsNeutral] at h
          have ih' := ih h
          simp only [recalculatePortPositionsForRotatedNodes, List.map_cons] at ih' ⊢
          simp [ih']
      | .edge i a b =>
          simp only [allRotationsNeutral] at h
          have ih' := ih h
          simp only [recalculatePortPositionsForRotatedNodes, List.map_cons] at ih' ⊢
          simp [ih']

/-- C8: for every tree in which no node (package containers included)
carries a non-neutral rotation, loading the serialized tree with
`loadFromJson` and reading it back with `getModel` returns a tree equal in
all fields to the original — the bulk-load round-trip is the identity on
unrotated trees, for any rotated-node repair function. -/
theorem c8_round_trip (repair : NodeData → NodeData) (g : SprottyGraph)
    (h : allRotationsNeutral g.children = true) :
    getModel (loadFromJson repair g) = g := by
  unfold getModel loadFromJson
  dsimp only
  rw [recalc_neutral_id repair g.children h]

/-- Witness for C8: a tree with a process node (rotation 0), a package
containing an svg node (rotation 360), and an edge, survives the load
round-trip unchanged. -/
theorem c8_witness :
    getModel (loadFromJson (fun d => d) sampleNeutralGraph) = sampleNeutralGraph :=
  c8_round_trip (fun d => d) sampleNeutralGraph (by
    norm_num [allRotationsNeutral, sampleNeutralGraph, sampleProcessNode, sampleSvgNode,
      neutralRotation])

/-- Resizing preserves the node/package type test. -/
theorem isNodeChild_resizeChild (w h : ℚ) (c : Child) :
    isNodeChild (resizeChild w h c) = isNodeChild c := by
  cases c <;> rfl

/-- Resizing preserves the child id. -/
theorem childId_resizeChild (w h : ℚ) (c : Child) :
    childId (resizeChild w h c) = childId c := by
  cases c <;> rfl

/-- Fuel-indexed proof of the lookup/update correspondence of
`updateNodeSize`. -/
theorem updateSizeGo_spec_fuel (nodeId : String) (w h : ℚ) :
    ∀ (fuel : Nat) (cs : List Child), sizeOf cs ≤ fuel →
      UpdateSizeSpec nodeId w h cs := by
  intro fuel
  induction fuel with
  | zero =>
      intro cs hle
      cases cs with
      | nil => exact Or.inl ⟨by simp [findNodeC], by simp [updateSizeGo]⟩
      | cons c cs =>
          simp only [List.cons.sizeOf_spec] at hle
          omega
  | succ n ih =>
      intro cs hle
      cases cs with
      | nil => exact Or.inl ⟨by simp [findNodeC], by simp [updateSizeGo]⟩
      | cons c cs =>
          have hcs : sizeOf cs ≤ n := by
            simp only [List.cons.sizeOf_spec] at hle
            omega
          by_cases hcond : (isNodeChild c && decide (childId c = nodeId)) = true
          · refine Or.inr ⟨c, resizeChild w h c :: cs, ?_, ?_, ?_⟩
            · rw [findNodeC.eq_def]
              simp [hcond]
            · rw [updateSizeGo.eq_def]
              simp [hcond]
            · have hcond' :
                  (isNodeChild (resizeChild w h c) &&
                    decide (childId (resizeChild w h c) = nodeId)) = true := by
                rw [isNodeChild_resizeChild, childId_resizeChild]
                exact hcond
              rw [findNodeC.eq_def]
              simp [hcond']
          · cases c with
            | pkg i p sz nm ch r =>
                have hnid : ¬ (i = nodeId) := by
                  simpa [isNodeChild, childId] using hcond
                have hch : sizeOf ch ≤ n := by
                  simp only [List.cons.sizeOf_spec, Child.pkg.sizeOf_spec] at hle
                  omega
                rcases ih ch hch with ⟨hfch, huch⟩ | ⟨c0, ch', hfch, huch, hfch'⟩
                · rcases ih cs hcs with ⟨hfcs, hucs⟩ | ⟨c0, cs', hfcs, hucs, hfcs'⟩
                  · exact Or.inl ⟨by simp [findNodeC, isNodeChild, childId, hnid, hfch, hfcs],
                      by simp [updateSizeGo, isNodeChild, childId, hnid, huch, hucs]⟩
                  · refine Or.inr ⟨c0, .pkg i p sz nm ch r :: cs', ?_, ?_, ?_⟩
                    · simp [findNodeC, isNodeChild, childId, hnid, hfch, hfcs]
                    · simp [updateSizeGo, isNodeChild, childId, hnid, huch, hucs]
                    · simp [findNodeC, isNodeChild, childId, hnid, hfch, hfcs']
                · refine Or.inr ⟨c0, .pkg i p sz nm ch' r :: cs, ?_, ?_, ?_⟩
                  · simp [findNodeC, isNodeChild, childId, hnid, hfch]
                  · simp [updateSizeGo, isNodeChild, childId, hnid, huch]
                  · simp [findNodeC, isNodeChild, childId, hnid, hfch']
            | node k d =>
                have hnid : ¬ (d.id = nodeId) := by
                  simpa [isNodeChild, childId] using hcond
                rcases ih cs hcs with ⟨hfcs, hucs⟩ | ⟨c0, cs', hfcs, hucs, hfcs'⟩
                · exact Or.inl ⟨by simp [findNodeC, isNodeChild, childId, hnid, hfcs],
                    by simp [updateSizeGo, isNodeChild, childId, hnid, hucs]⟩
                · refine Or.inr ⟨c0, .node k d :: cs', ?_, ?_, ?_⟩
                  · simp [findNodeC, isNodeChild, childId, hnid, hfcs]
                  · simp [updateSizeGo, isNodeChild, childId, hnid, hucs]
                  · simp [findNodeC, isNodeChild, childId, hnid, hfcs']
            | portChild p =>
                rcases ih cs hcs with ⟨hfcs, hucs⟩ | ⟨c0, cs', hfcs, hucs, hfcs'⟩
                · exact Or.inl ⟨by simp [findNodeC, isNodeChild, hfcs],
                    by simp [updateSizeGo, isNodeChild, hucs]⟩
                · refine Or.inr ⟨c0, .portChild p :: cs', ?_, ?_, ?_⟩
                  · simp [findNodeC, isNodeChild, hfcs]
                  · simp [updateSizeGo, isNodeChild, hucs]
                  · simp [findNodeC, isNodeChild, hfcs']
            | edge i a b =>
                rcases ih cs hcs with ⟨hfcs, hucs⟩ | ⟨c0, cs', hfcs, hucs, hfcs'⟩
                · exact Or.inl ⟨by simp [findNodeC, isNodeChild, hfcs],
                    by simp [updateSizeGo, isNodeChild, hucs]⟩
                · refine Or.inr ⟨c0, .edge i a b :: cs', ?_, ?_, ?_⟩
                  · simp [findNodeC, isNodeChild, hfcs]
                  · simp [updateSizeGo, isNodeChild, hucs]
                  · simp [findNodeC, isNodeChild, hfcs']

/-- Lookup/update correspondence of `updateNodeSize`, for every tree. -/
theorem updateSizeGo_spec (nodeId : String) (w h : ℚ) (cs : List Child) :
    UpdateSizeSpec nodeId w h cs :=
  updateSizeGo_spec_fuel nodeId w h (sizeOf cs) cs le_rfl

/-- The ports sharing side `s` after the repositioning pass of
`updateNodeSize` are exactly the original side-`s` ports, each re-placed by
its current ordinal within the side. -/
theorem resizePortsGo_filter_side (newSize : Sz) (total : PortSide → Nat) (s : PortSide) :
    ∀ (ps : List SprottyPort) (counts : PortSide → Nat),
      (resizePortsGo newSize total counts ps).filter (fun p => p.side = some s)
        = repositionSeq newSize (total s) s (counts s)
            (ps.filter (fun p => p.side = some s)) := by
  intro ps
  induction ps with
  | nil => intro counts; rfl
  | cons p ps ih =>
      intro counts
      cases hside : p.side with
      | none =>
          simp [resizePortsGo, hside, List.filter_cons, ih counts]
      | some s' =>
          by_cases hss : s' = s
          · subst hss
            simp only [resizePortsGo, hside, List.filter_cons]
            simp [repositionSeq, ih, hside]
          · have hss' : ¬ s = s' := fun heq => hss heq.symm
            simp only [resizePortsGo, hside, List.filter_cons]
            have ih' := ih (fun s'' => if s'' = s' then counts s'' + 1 else counts s'')
            simp only [if_neg hss'] at ih'
            simp [hss, ih']

/-- Ports without a recognized side pass through the repositioning pass of
`updateNodeSize` unmoved. -/
theorem resizePortsGo_filter_no_side (newSize : Sz) (total : PortSide → Nat) :
    ∀ (ps : List SprottyPort) (counts : PortSide → Nat),
      (resizePortsGo newSize total counts ps).filter (fun p => p.side = none)
        = ps.filter (fun p => p.side = none) := by
  intro ps
  induction ps with
  | nil => intro counts; rfl
  | cons p ps ih =>
      intro counts
      cases hside : p.side with
      | none => simp [resizePortsGo, hside, List.filter_cons, ih counts]
      | some s' => simp [resizePortsGo, hside, List.filter_cons, ih]

/-- C7: for every node found anywhere in the tree (package containers
included) with size 120x60, two `left` ports and one `right` port,
`updateNodeSize(nodeId, 200, 100)` resizes exactly that node to 200x100 and
re-derives each port position from the new size using the port's current
ordinal within its side: the two left ports move to `(-8, 0)` and
`(-8, 100-16=84)`, the right port moves to `(200-8=192, (100-16)/2=42)`, and
ports not attached to a recognized side keep their positions. -/
theorem c7_updateNodeSize (st : ModelState) (nodeId : String) (kind : NodeKind)
    (d : NodeData) (p1 p2 q : SprottyPort)
    (hfind : findNodeC nodeId st.model.children = some (.node kind d))
    (hsize : d.size = { width := 120, height := 60 })
    (hleft : d.ports.filter (fun p => p.side = some PortSide.left) = [p1, p2])
    (hright : d.ports.filter (fun p => p.side = some PortSide.right) = [q]) :
    findNodeC nodeId (updateNodeSize st nodeId 200 100).model.children
      = some (.node kind (resizeNodeData 200 100 d)) ∧
    (resizeNodeData 200 100 d).size = { width := 200, height := 100 } ∧
    (resizeNodeData 200 100 d).ports.filter (fun p => p.side = some PortSide.left)
      = [{ p1 with position := { x := -8, y := 0 } },
         { p2 with position := { x := -8, y := 84 } }] ∧
    (resizeNodeData 200 100 d).ports.filter (fun p => p.side = some PortSide.right)
      = [{ q with position := { x := 192, y := 42 } }] ∧
    (resizeNodeData 200 100 d).ports.filter (fun p => p.side = none)
      = d.ports.filter (fun p => p.side = none) := by
  rcases updateSizeGo_spec nodeId 200 100 st.model.children with
    ⟨hf, _⟩ | ⟨c0, cs', hf, hu, hf'⟩
  · rw [hfind] at hf
    cases hf
  · rw [hfind] at hf
    injection hf with hc0
    subst hc0
    refine ⟨?_, rfl, ?_, ?_, ?_⟩
    · unfold updateNodeSize
      rw [hu]
      simpa [resizeChild] using hf'
    · have htot : (d.ports.countP fun p => p.side = some PortSide.left) = 2 := by
        rw [List.countP_eq_length_filter, hleft]
        rfl
      show (resizePortsGo { width := 200, height := 100 }
          (fun s => d.ports.countP fun p => p.side = some s) (fun _ => 0)
          d.ports).filter (fun p => p.side = some PortSide.left) = _
      rw [resizePortsGo_filter_side, hleft]
      simp only [htot]
      simp only [repositionSeq]
      norm_num [calculatePortPosition, distributeAlongAxis, PORT_SIZE, PORT_OFFSET,
        Pt.mk.injEq]
    · have htot : (d.ports.countP fun p => p.side = some PortSide.right) = 1 := by
        rw [List.countP_eq_length_filter, hright]
        rfl
      show (resizePortsGo { width := 200, height := 100 }
          (fun s => d.ports.countP fun p => p.side = some s) (fun _ => 0)
          d.ports).filter (fun p => p.side = some PortSide.right) = _
      rw [resizePortsGo_filter_side, hright]
      simp only [htot]
      simp only [repositionSeq]
      norm_num [calculatePortPosition, distributeAlongAxis, PORT_SIZE, PORT_OFFSET,
        Pt.mk.injEq]
    · show (resizePortsGo { width := 200, height := 100 }
          (fun s => d.ports.countP fun p => p.side = some s) (fun _ => 0)
          d.ports).filter (fun p => p.side = none) = _
      rw [resizePortsGo_filter_no_side]

/-- Witness for C7: the sample 120x60 node (two left ports around a
side-less port, one right port) inside a package container. -/
theorem c7_witness :
    findNodeC "m" (updateNodeSize resizeSampleState "m" 200 100).model.children
      = some (.node .process (resizeNodeData 200 100 resizeSampleNode)) ∧
    (resizeNodeData 200 100 resizeSampleNode).size = { width := 200, height := 100 } ∧
    (resizeNodeData 200 100 resizeSampleNode).ports.filter
        (fun p => p.side = some PortSide.left)
      = [{ resizeSamplePortL1 with position := { x := -8, y := 0 } },
         { resizeSamplePortL2 with position := { x := -8, y := 84 } }] ∧
    (resizeNodeData 200 100 resizeSampleNode).ports.filter
        (fun p => p.side = some PortSide.right)
      = [{ resizeSamplePortR with position := { x := 192, y := 42 } }] ∧
    (resizeNodeData 200 100 resizeSampleNode).ports.filter (fun p => p.side = none)
      = resizeSampleNode.ports.filter (fun p => p.side = none) :=
  c7_updateNodeSize resizeSampleState "m" .process resizeSampleNode
    resizeSamplePortL1 resizeSamplePortL2 resizeSamplePortR
    (by simp [findNodeC, resizeSampleState, resizeSampleNode, isNodeChild, childId])
    (by rfl)
    (by rfl)
    (by rfl)

end Usonia
